import Mathlib

/-!
Shallow embedding of the PWM carrier / compare / action modules of the
power-electronics-control-lib repository
(`src/modules/power_electronics/pwm/cpwm/cpwm.cpp` and
`src/modules/power_electronics/pwm/epwm/epwm.cpp`).

C `float` values are modelled as exact rationals (`ℚ`); the C literals
`1e-4F`, `0.9F`, `0.1F`, `1e-9F` become the corresponding exact rational
constants.  Each C function mutating a `*_t` struct through a pointer is
modelled as a pure function returning the updated struct.  The NaN
sentinel accepted by `update_parameters` for its `phase_offset` argument
is modelled by an `Option ℚ` argument (`none` plays the role of NaN, for
which the C self-comparison `phase_offset == phase_offset` is false).
-/

namespace cpwm

/-- `cpwm_params_t` from `cpwm.h` / `cpwm.cpp`. -/
structure cpwm_params_t where
  Fs : ℚ
  gate_on_voltage : ℚ
  gate_off_voltage : ℚ
  sync_enable : Bool
  phase_offset : ℚ
  dead_time : ℚ
  duty_cycle : ℚ
deriving DecidableEq, Repr

/-- The fields of `cpwm_state_t` used by `cpwm.cpp`. -/
structure cpwm_state_t where
  cmp_lead : ℚ
  cmp_lag : ℚ
  current_Fs : ℚ
  pending_Fs : ℚ
  frequency_change_pending : Bool
  cumulative_phase_applied : ℚ
  last_time : ℚ
  internal_counter : ℚ
  prev_counter : ℚ
deriving DecidableEq, Repr

/-- `cpwm_outputs_t` from `cpwm.h`. -/
structure cpwm_outputs_t where
  PWMA : ℚ
  PWMB : ℚ
  counter_normalized : ℚ
  period_sync : Bool
deriving DecidableEq, Repr

/-- `cpwm_t` from `cpwm.h`. -/
structure cpwm_t where
  params : cpwm_params_t
  state : cpwm_state_t
  outputs : cpwm_outputs_t
deriving DecidableEq, Repr

/-- `CPWM_TOLERANCE` (`1e-4F`). -/
def CPWM_TOLERANCE : ℚ := 1 / 10000

/-- `CPWM_WRAP_HIGH_THRESHOLD` (`0.9F`). -/
def CPWM_WRAP_HIGH_THRESHOLD : ℚ := 9 / 10

/-- `CPWM_WRAP_LOW_THRESHOLD` (`0.1F`). -/
def CPWM_WRAP_LOW_THRESHOLD : ℚ := 1 / 10

/-- `clear_state` from `cpwm.cpp`. -/
def clear_state : cpwm_state_t :=
  { cmp_lead := 0
    cmp_lag := 0
    current_Fs := 0
    pending_Fs := 0
    frequency_change_pending := false
    cumulative_phase_applied := 0
    last_time := 0
    internal_counter := 0
    prev_counter := 0 }

/-- `clear_outputs` from `cpwm.cpp`. -/
def clear_outputs (gate_off_voltage : ℚ) : cpwm_outputs_t :=
  { PWMA := gate_off_voltage
    PWMB := gate_off_voltage
    counter_normalized := 0
    period_sync := false }

/-- The clamped time step `dt` of `calculate_counter_state`
    (`float dt = t - last_time; if (dt < 0) dt = 0;`). -/
def counter_dt (s : cpwm_state_t) (t : ℚ) : ℚ :=
  if t - s.last_time < 0 then 0 else t - s.last_time

/-- The incremented internal counter of `calculate_counter_state` before
    wrap reduction (`internal_counter += dt * current_Fs`). -/
def counter_raw (s : cpwm_state_t) (t : ℚ) : ℚ :=
  s.internal_counter + counter_dt s t * s.current_Fs

/-- Body of `calculate_counter_state` after the first-call setup block
    (`cpwm.cpp` lines 79-167), reading and writing the instance state. -/
def ccs_after_init (p : cpwm_t) (t : ℚ) : cpwm_t :=
  let ic : ℚ := counter_raw p.state t
  let counter_wrapped : Bool := decide (ic ≥ 1)
  let ic2 : ℚ := if ic ≥ 1 then ic - (⌊ic⌋ : ℚ) else ic
  let st2 : cpwm_state_t := { p.state with last_time := t, internal_counter := ic2 }
  let st3 : cpwm_state_t :=
    if counter_wrapped then
      (if st2.frequency_change_pending then
        { st2 with current_Fs := st2.pending_Fs, frequency_change_pending := false }
      else
        let phase_difference : ℚ := p.params.phase_offset - st2.cumulative_phase_applied
        if |phase_difference| > 1 / 1000000000 then
          let normal_freq : ℚ := p.params.Fs
          let temp_freq : ℚ := normal_freq / (1 - normal_freq * phase_difference)
          { st2 with
            current_Fs := temp_freq
            pending_Fs := normal_freq
            frequency_change_pending := true
            cumulative_phase_applied := p.params.phase_offset }
        else st2)
    else st2
  let carrier_mod : ℚ := st3.internal_counter
  let counter_normalized : ℚ := |2 * (carrier_mod - 1 / 2)|
  let period_sync : Bool :=
    counter_wrapped || decide (carrier_mod < CPWM_TOLERANCE)
      || (decide (st3.prev_counter > CPWM_WRAP_HIGH_THRESHOLD)
          && decide (st3.internal_counter < CPWM_WRAP_LOW_THRESHOLD))
  { p with
    state := { st3 with prev_counter := st3.internal_counter }
    outputs := { p.outputs with
                 counter_normalized := counter_normalized
                 period_sync := period_sync } }

/-- `calculate_counter_state` from `cpwm.cpp`: the first-call setup block
    (`current_Fs == 0.0F`) followed by the counter/phase update. -/
def calculate_counter_state (p : cpwm_t) (t : ℚ) : cpwm_t :=
  let p0 : cpwm_t :=
    if p.state.current_Fs = 0 then
      { p with state := { p.state with
                          current_Fs := p.params.Fs
                          last_time := t
                          internal_counter := 0 } }
    else p
  ccs_after_init p0 t

/-- `calculate_compare_values` from `cpwm.cpp`. -/
def calculate_compare_values (p : cpwm_t) (cmp : ℚ) : cpwm_t :=
  let current_dead_time_norm : ℚ := p.params.dead_time * p.state.current_Fs
  let half_dead_time : ℚ := current_dead_time_norm * (1 / 2)
  let cmp_lead_raw : ℚ := cmp + half_dead_time
  let cmp_lag_raw : ℚ := cmp - half_dead_time
  let cmp_lead : ℚ :=
    if cmp_lead_raw > 1 then 1 else if cmp_lead_raw < 0 then 0 else cmp_lead_raw
  let cmp_lag : ℚ :=
    if cmp_lag_raw > 1 then 1 else if cmp_lag_raw < 0 then 0 else cmp_lag_raw
  let final : ℚ × ℚ :=
    if cmp_lead ≤ 0 ∨ cmp_lag ≤ 0 then (0, 0)
    else if cmp_lead ≥ 1 ∨ cmp_lag ≥ 1 then (1, 1)
    else (cmp_lead, cmp_lag)
  { p with state := { p.state with cmp_lead := final.1, cmp_lag := final.2 } }

/-- `process_pwm_actions` from `cpwm.cpp`. -/
def process_pwm_actions (p : cpwm_t) (_cmp : ℚ) : cpwm_t :=
  let counter : ℚ := p.outputs.counter_normalized
  let pwma : ℚ :=
    if counter > p.state.cmp_lead then p.params.gate_on_voltage else p.params.gate_off_voltage
  let pwmb : ℚ :=
    if counter < p.state.cmp_lag then p.params.gate_on_voltage else p.params.gate_off_voltage
  { p with outputs := { p.outputs with PWMA := pwma, PWMB := pwmb } }

/-- `cpwm_reset` from `cpwm.cpp`: clear state and outputs, then restore the
    preserved continuity fields. -/
def cpwm_reset (p : cpwm_t) : cpwm_t :=
  let saved : cpwm_state_t := p.state
  let s : cpwm_state_t := clear_state
  let o : cpwm_outputs_t := clear_outputs p.params.gate_off_voltage
  { p with
    state := { s with
               current_Fs := saved.current_Fs
               pending_Fs := saved.pending_Fs
               frequency_change_pending := saved.frequency_change_pending
               cumulative_phase_applied := saved.cumulative_phase_applied
               last_time := saved.last_time
               internal_counter := saved.internal_counter
               prev_counter := saved.prev_counter }
    outputs := o }

/-- `cpwm_init` from `cpwm.cpp`. -/
def cpwm_init (p : cpwm_t) (params : cpwm_params_t) : cpwm_t :=
  let p1 : cpwm_t :=
    { p with
      params := params
      state := { p.state with
                 current_Fs := params.Fs
                 pending_Fs := params.Fs
                 frequency_change_pending := false
                 cumulative_phase_applied := 0
                 last_time := 0
                 internal_counter := 0
                 prev_counter := 0 } }
  cpwm_reset p1

/-- `cpwm_step` from `cpwm.cpp`. -/
def cpwm_step (p : cpwm_t) (t : ℚ) (sync_in : Bool) : cpwm_t :=
  let p0 : cpwm_t :=
    if p.params.sync_enable && sync_in then
      { p with state := { p.state with internal_counter := 0, last_time := t } }
    else p
  let p1 : cpwm_t := calculate_counter_state p0 t
  let p2 : cpwm_t := calculate_compare_values p1 p1.params.duty_cycle
  process_pwm_actions p2 p2.params.duty_cycle

/-- `update_parameters` from `cpwm.cpp`.  The `phase_offset` argument is
    `Option ℚ`: `none` models the NaN no-change sentinel. -/
def update_parameters (p : cpwm_t) (frequency dead_time : ℚ)
    (phase_offset : Option ℚ) (duty_cycle : ℚ) : cpwm_t :=
  let p1 : cpwm_t :=
    if frequency > 0 then
      let q : cpwm_t :=
        { p with
          params := { p.params with Fs := frequency }
          state := { p.state with pending_Fs := frequency, frequency_change_pending := true } }
      if q.state.current_Fs = 0 then
        { q with state := { q.state with current_Fs := frequency, frequency_change_pending := false } }
      else q
    else p
  let p2 : cpwm_t :=
    if dead_time ≥ 0 then { p1 with params := { p1.params with dead_time := dead_time } } else p1
  let p3 : cpwm_t :=
    match phase_offset with
    | some φ => { p2 with params := { p2.params with phase_offset := φ } }
    | none => p2
  if duty_cycle ≥ 0 ∧ duty_cycle ≤ 1 then
    { p3 with params := { p3.params with duty_cycle := duty_cycle } }
  else p3

end cpwm

namespace epwm

/-- `epwm_count_direction_t` from `epwm.h`. -/
inductive epwm_count_direction_t where
  | EPWM_COUNT_UP
  | EPWM_COUNT_DOWN
deriving DecidableEq, Repr

export epwm_count_direction_t (EPWM_COUNT_UP EPWM_COUNT_DOWN)

/-- The two PWM action modes `epwm.cpp` switches on; the C `default` case of
    each switch performs no action and is unreachable with these two values. -/
inductive epwm_action_mode_t where
  | EPWM_ACTION_CMPB_DOWN_CMPA_UP
  | EPWM_ACTION_CMPA_DOWN_CMPB_UP
deriving DecidableEq, Repr

export epwm_action_mode_t (EPWM_ACTION_CMPB_DOWN_CMPA_UP EPWM_ACTION_CMPA_DOWN_CMPB_UP)

/-- `epwm_params_t` as used by `epwm.cpp`. -/
structure epwm_params_t where
  Ts : ℚ
  pwma_mode : epwm_action_mode_t
  pwmb_mode : epwm_action_mode_t
  gate_on_voltage : ℚ
  gate_off_voltage : ℚ
  sync_enable : Bool
  phase_offset : ℚ
  dead_time_rising : ℚ
  dead_time_falling : ℚ
deriving DecidableEq, Repr

/-- `epwm_state_t` as used by `epwm.cpp`. -/
structure epwm_state_t where
  counter_direction : epwm_count_direction_t
  counter_value : ℚ
  previous_counter : ℚ
  pwma_state : Bool
  pwmb_state : Bool
  first_run : Bool
  dead_time_rising_norm : ℚ
  dead_time_falling_norm : ℚ
deriving DecidableEq, Repr

/-- `epwm_outputs_t` from `epwm.h`. -/
structure epwm_outputs_t where
  PWMA : ℚ
  PWMB : ℚ
  counter_normalized : ℚ
  counter_direction : epwm_count_direction_t
  period_sync : Bool
deriving DecidableEq, Repr

/-- `epwm_t` from `epwm.h`. -/
structure epwm_t where
  params : epwm_params_t
  state : epwm_state_t
  outputs : epwm_outputs_t
deriving DecidableEq, Repr

/-- `EPWM_TOLERANCE` (`1e-4F`). -/
def EPWM_TOLERANCE : ℚ := 1 / 10000

/-- C `fmodf(x, 1.0F)`: `x` minus its integer part truncated toward zero. -/
def fmodf_one (x : ℚ) : ℚ :=
  x - (if x < 0 then -((⌊-x⌋ : ℤ) : ℚ) else ((⌊x⌋ : ℤ) : ℚ))

/-- `clear_state` from `epwm.cpp`. -/
def clear_state : epwm_state_t :=
  { counter_direction := EPWM_COUNT_UP
    counter_value := 0
    previous_counter := 0
    pwma_state := false
    pwmb_state := false
    first_run := true
    dead_time_rising_norm := 0
    dead_time_falling_norm := 0 }

/-- `clear_outputs` from `epwm.cpp` (note: gate outputs are cleared to the
    literal `0.0F`, not to `gate_off_voltage`). -/
def clear_outputs : epwm_outputs_t :=
  { PWMA := 0
    PWMB := 0
    counter_normalized := 0
    counter_direction := EPWM_COUNT_UP
    period_sync := false }

/-- `calculate_counter_state` from `epwm.cpp`. -/
def calculate_counter_state (p : epwm_t) (t : ℚ) (phase_offset : ℚ) : epwm_t :=
  let carrier_raw : ℚ := t / p.params.Ts + phase_offset / p.params.Ts
  let carrier_mod : ℚ := carrier_raw - ((⌊carrier_raw⌋ : ℤ) : ℚ)
  let counter_value : ℚ := |2 * (carrier_mod - 1 / 2)|
  let counter_dir : epwm_count_direction_t :=
    if carrier_mod < 1 / 2 then EPWM_COUNT_UP else EPWM_COUNT_DOWN
  { p with
    state := { p.state with counter_value := counter_value, counter_direction := counter_dir }
    outputs := { p.outputs with period_sync := decide (fmodf_one carrier_raw < EPWM_TOLERANCE) } }

/-- `detect_compare_crossing` from `epwm.cpp`. -/
def detect_compare_crossing (current_counter previous_counter compare_value : ℚ)
    (current_dir trigger_dir : epwm_count_direction_t) : Bool :=
  if trigger_dir = EPWM_COUNT_UP ∧ current_dir = EPWM_COUNT_UP then
    decide (previous_counter < compare_value ∧ current_counter ≥ compare_value)
  else if trigger_dir = EPWM_COUNT_DOWN ∧ current_dir = EPWM_COUNT_DOWN then
    decide (previous_counter > compare_value ∧ current_counter ≤ compare_value)
  else false

/-- `apply_dead_time` from `epwm.cpp`. -/
def apply_dead_time (p : epwm_t) : epwm_t :=
  if p.params.Ts > EPWM_TOLERANCE then
    { p with state := { p.state with
                        dead_time_rising_norm := p.params.dead_time_rising / p.params.Ts
                        dead_time_falling_norm := p.params.dead_time_falling / p.params.Ts } }
  else
    { p with state := { p.state with dead_time_rising_norm := 0, dead_time_falling_norm := 0 } }

/-- `process_pwm_actions` from `epwm.cpp`. -/
def process_pwm_actions (p : epwm_t) (cmpa cmpb : ℚ) : epwm_t :=
  let cmpa_rising : ℚ := min 1 (max 0 (cmpa + p.state.dead_time_rising_norm * (1 / 2)))
  let cmpa_falling : ℚ := min 1 (max 0 (cmpa - p.state.dead_time_falling_norm * (1 / 2)))
  let cmpb_rising : ℚ := min 1 (max 0 (cmpb + p.state.dead_time_rising_norm * (1 / 2)))
  let cmpb_falling : ℚ := min 1 (max 0 (cmpb - p.state.dead_time_falling_norm * (1 / 2)))
  let pwma_state : Bool :=
    match p.params.pwma_mode with
    | EPWM_ACTION_CMPB_DOWN_CMPA_UP =>
      let s1 : Bool :=
        if detect_compare_crossing p.state.counter_value p.state.previous_counter cmpb_rising
            p.state.counter_direction EPWM_COUNT_DOWN then true else p.state.pwma_state
      if detect_compare_crossing p.state.counter_value p.state.previous_counter cmpa_falling
          p.state.counter_direction EPWM_COUNT_UP then false else s1
    | EPWM_ACTION_CMPA_DOWN_CMPB_UP =>
      let s1 : Bool :=
        if detect_compare_crossing p.state.counter_value p.state.previous_counter cmpa_rising
            p.state.counter_direction EPWM_COUNT_DOWN then true else p.state.pwma_state
      if detect_compare_crossing p.state.counter_value p.state.previous_counter cmpb_falling
          p.state.counter_direction EPWM_COUNT_UP then false else s1
  let pwmb_state : Bool :=
    match p.params.pwmb_mode with
    | EPWM_ACTION_CMPB_DOWN_CMPA_UP =>
      let s1 : Bool :=
        if detect_compare_crossing p.state.counter_value p.state.previous_counter cmpb_rising
            p.state.counter_direction EPWM_COUNT_DOWN then true else p.state.pwmb_state
      if detect_compare_crossing p.state.counter_value p.state.previous_counter cmpa_falling
          p.state.counter_direction EPWM_COUNT_UP then false else s1
    | EPWM_ACTION_CMPA_DOWN_CMPB_UP =>
      let s1 : Bool :=
        if detect_compare_crossing p.state.counter_value p.state.previous_counter cmpa_rising
            p.state.counter_direction EPWM_COUNT_DOWN then true else p.state.pwmb_state
      if detect_compare_crossing p.state.counter_value p.state.previous_counter cmpb_falling
          p.state.counter_direction EPWM_COUNT_UP then false else s1
  { p with state := { p.state with pwma_state := pwma_state, pwmb_state := pwmb_state } }

/-- `epwm_reset` from `epwm.cpp`. -/
def epwm_reset (p : epwm_t) : epwm_t :=
  let dead_time_rising_norm : ℚ := p.state.dead_time_rising_norm
  let dead_time_falling_norm : ℚ := p.state.dead_time_falling_norm
  { p with
    state := { clear_state with
               dead_time_rising_norm := dead_time_rising_norm
               dead_time_falling_norm := dead_time_falling_norm }
    outputs := clear_outputs }

/-- `epwm_init` from `epwm.cpp`.  The C `assert`s on `Ts > 0` and nonnegative
    dead times abort only debug builds and do not alter the stored values;
    they are not part of the state transformation. -/
def epwm_init (p : epwm_t) (params : epwm_params_t) : epwm_t :=
  let p1 : epwm_t := { p with params := params }
  epwm_reset (apply_dead_time p1)

/-- `epwm_step` from `epwm.cpp`. -/
def epwm_step (p : epwm_t) (t : ℚ) (cmpa cmpb : ℚ) (sync_in : Bool) : epwm_t :=
  if p.state.first_run then
    let q : epwm_t := { p with state := { p.state with first_run := false } }
    let q1 : epwm_t := calculate_counter_state q t q.params.phase_offset
    { q1 with state := { q1.state with previous_counter := q1.state.counter_value } }
  else
    let q : epwm_t := { p with state := { p.state with previous_counter := p.state.counter_value } }
    let phase_offset : ℚ :=
      if q.params.sync_enable && sync_in then t else q.params.phase_offset
    let q1 : epwm_t := calculate_counter_state q t phase_offset
    let q2 : epwm_t := process_pwm_actions q1 cmpa cmpb
    { q2 with
      outputs := { q2.outputs with
                   PWMA := if q2.state.pwma_state then q2.params.gate_on_voltage
                           else q2.params.gate_off_voltage
                   PWMB := if q2.state.pwmb_state then q2.params.gate_on_voltage
                           else q2.params.gate_off_voltage
                   counter_normalized := q2.state.counter_value
                   counter_direction := q2.state.counter_direction } }

end epwm

/-! ### Concrete fixtures used by the claim theorems -/

namespace cpwm

/-- An all-zero `cpwm_t` instance from which `cpwm_init` is invoked. -/
def zeroInst : cpwm_t :=
  { params := { Fs := 0, gate_on_voltage := 0, gate_off_voltage := 0, sync_enable := false,
                phase_offset := 0, dead_time := 0, duty_cycle := 0 }
    state := { cmp_lead := 0, cmp_lag := 0, current_Fs := 0, pending_Fs := 0,
               frequency_change_pending := false, cumulative_phase_applied := 0,
               last_time := 0, internal_counter := 0, prev_counter := 0 }
    outputs := { PWMA := 0, PWMB := 0, counter_normalized := 0, period_sync := false } }

/-- 1 kHz carrier, 10 V / 0 V gate levels, zero dead time, duty cycle 0. -/
def dutyZeroParams : cpwm_params_t :=
  { Fs := 1000, gate_on_voltage := 10, gate_off_voltage := 0, sync_enable := false,
    phase_offset := 0, dead_time := 0, duty_cycle := 0 }

/-- Module initialized with `dutyZeroParams`. -/
def m0 : cpwm_t := cpwm_init zeroInst dutyZeroParams

/-- `m0` after one step at `t = 0`. -/
def stepped0 : cpwm_t := cpwm_step m0 0 false

/-- 1 kHz carrier with a requested phase offset of 10 ms (ten carrier
    periods), duty cycle one half. -/
def warp10Params : cpwm_params_t :=
  { Fs := 1000, gate_on_voltage := 10, gate_off_voltage := 0, sync_enable := false,
    phase_offset := 1 / 100, dead_time := 0, duty_cycle := 1 / 2 }

/-- Module initialized with `warp10Params`. -/
def warpInst : cpwm_t := cpwm_init zeroInst warp10Params

/-- `warpInst` stepped at `t = 0`. -/
def warpStep1 : cpwm_t := cpwm_step warpInst 0 false

/-- `warpStep1` stepped at `t = 1 ms` (first period boundary: the phase
    warp computes a negative temporary frequency `1000/(1-10)`). -/
def warpStep2 : cpwm_t := cpwm_step warpStep1 (1 / 1000) false

/-- `warpStep2` stepped at `t = 2 ms`: the carrier runs backward. -/
def warpStep3 : cpwm_t := cpwm_step warpStep2 (2 / 1000) false

/-- 1 kHz carrier, phase offset 1 s (1000 periods), dead time 999/5000 s,
    duty cycle one half. -/
def overlapParams : cpwm_params_t :=
  { Fs := 1000, gate_on_voltage := 10, gate_off_voltage := 0, sync_enable := false,
    phase_offset := 1, dead_time := 999 / 5000, duty_cycle := 1 / 2 }

/-- Module initialized with `overlapParams`. -/
def overlapInst : cpwm_t := cpwm_init zeroInst overlapParams

/-- `overlapInst` stepped at `t = 1/800 s`: the step wraps, installs the
    negative temporary frequency `1000/(1-1000)` and lands at carrier
    position one half. -/
def overlapStep : cpwm_t := cpwm_step overlapInst (1 / 800) false

/-- The §8 scenario of the spec: 50 kHz carrier with a requested phase
    offset of a quarter period (5 µs). -/
def quarterParams : cpwm_params_t :=
  { Fs := 50000, gate_on_voltage := 10, gate_off_voltage := 0, sync_enable := false,
    phase_offset := 1 / 200000, dead_time := 0, duty_cycle := 1 / 2 }

/-- Module initialized with `quarterParams`. -/
def quarterInst : cpwm_t := cpwm_init zeroInst quarterParams

/-- A valid baseline configuration: 1 kHz, 1 µs dead time. -/
def priorParams : cpwm_params_t :=
  { Fs := 1000, gate_on_voltage := 10, gate_off_voltage := 0, sync_enable := false,
    phase_offset := 0, dead_time := 1 / 1000000, duty_cycle := 1 / 2 }

/-- Module holding the valid baseline configuration. -/
def priorInst : cpwm_t := cpwm_init zeroInst priorParams

/-- An invalid configuration: negative frequency and negative dead time. -/
def invalidParams : cpwm_params_t :=
  { Fs := -1, gate_on_voltage := 10, gate_off_voltage := 0, sync_enable := false,
    phase_offset := 0, dead_time := -1, duty_cycle := 1 / 2 }

end cpwm

namespace epwm

/-- An all-zero `epwm_t` instance from which `epwm_init` is invoked. -/
def zeroInstE : epwm_t :=
  { params := { Ts := 0, pwma_mode := EPWM_ACTION_CMPB_DOWN_CMPA_UP,
                pwmb_mode := EPWM_ACTION_CMPA_DOWN_CMPB_UP,
                gate_on_voltage := 0, gate_off_voltage := 0, sync_enable := false,
                phase_offset := 0, dead_time_rising := 0, dead_time_falling := 0 }
    state := { counter_direction := EPWM_COUNT_UP, counter_value := 0, previous_counter := 0,
               pwma_state := false, pwmb_state := false, first_run := true,
               dead_time_rising_norm := 0, dead_time_falling_norm := 0 }
    outputs := { PWMA := 0, PWMB := 0, counter_normalized := 0,
                 counter_direction := EPWM_COUNT_UP, period_sync := false } }

/-- A 1 ms-period configuration whose configured off level is 5 V. -/
def offParams : epwm_params_t :=
  { Ts := 1 / 1000, pwma_mode := EPWM_ACTION_CMPB_DOWN_CMPA_UP,
    pwmb_mode := EPWM_ACTION_CMPA_DOWN_CMPB_UP,
    gate_on_voltage := 10, gate_off_voltage := 5, sync_enable := false,
    phase_offset := 0, dead_time_rising := 0, dead_time_falling := 0 }

/-- The very first `epwm_step` after `epwm_init` with `offParams`. -/
def firstStep : epwm_t := epwm_step (epwm_init zeroInstE offParams) 0 (1 / 2) (1 / 2) false

end epwm

/-! ### Claim theorems -/

namespace cpwm

/-- C1: with stored duty cycle `0.0`, the code comment of
    `calculate_compare_values` ("0% duty cycle - force both outputs off
    regardless of dead time") and the spec demand both gates at
    `gate_off_voltage` for the whole cycle; evaluating the code shows that
    `process_pwm_actions` instead drives `PWMA` to `gate_on_voltage` at
    carrier position `counter_normalized = 1/2` (time `1/4000 s`). -/
theorem duty_zero_drives_PWMA_on_eval :
    m0.params.duty_cycle = 0 ∧
    (cpwm_step m0 (1 / 4000) false).outputs.counter_normalized = 1 / 2 ∧
    (cpwm_step m0 (1 / 4000) false).outputs.PWMA = m0.params.gate_on_voltage ∧
    m0.params.gate_on_voltage ≠ m0.params.gate_off_voltage := by
  norm_num [cpwm_step, calculate_counter_state, ccs_after_init, counter_raw, counter_dt,
    calculate_compare_values, process_pwm_actions, cpwm_init, cpwm_reset, clear_state,
    clear_outputs, m0, dutyZeroParams, zeroInst, CPWM_TOLERANCE, CPWM_WRAP_HIGH_THRESHOLD,
    CPWM_WRAP_LOW_THRESHOLD, abs_of_nonneg, abs_of_nonpos, abs_of_neg]

/-- C2: with a valid positive configured frequency (1 kHz) and a large
    requested phase offset, the one-cycle phase warp installs a negative
    temporary frequency, after which the carrier position output leaves
    `[0, 1]`: after the three steps of `warpStep3` the normalized counter
    output equals `11/9 > 1`, contradicting the `[0.0, 1.0]` range the
    header documents for `counter_normalized`. -/
theorem counter_normalized_escapes_unit_interval_eval :
    warpInst.params.Fs = 1000 ∧
    warpStep3.outputs.counter_normalized = 11 / 9 ∧
    ¬ warpStep3.outputs.counter_normalized ≤ 1 := by
  norm_num [cpwm_step, calculate_counter_state, ccs_after_init, counter_raw, counter_dt,
    calculate_compare_values, process_pwm_actions, cpwm_init, cpwm_reset, clear_state,
    clear_outputs, warpStep3, warpStep2, warpStep1, warpInst, warp10Params, zeroInst,
    CPWM_TOLERANCE, CPWM_WRAP_HIGH_THRESHOLD, CPWM_WRAP_LOW_THRESHOLD, abs_of_nonneg,
    abs_of_nonpos, abs_of_neg]

/-- C3: at the failing input `overlapStep` (nonnegative dead time, duty
    one half strictly inside the half-dead-time band of the step, distinct
    gate voltages) both gate outputs equal `gate_on_voltage` in the same
    step, because the phase warp made the step's active frequency negative
    and hence the half dead time negative. -/
theorem simultaneous_gate_on_eval :
    0 ≤ overlapInst.params.dead_time ∧
    overlapInst.params.dead_time * overlapStep.state.current_Fs * (1 / 2)
      < overlapInst.params.duty_cycle ∧
    overlapInst.params.duty_cycle
      < 1 - overlapInst.params.dead_time * overlapStep.state.current_Fs * (1 / 2) ∧
    overlapInst.params.gate_on_voltage ≠ overlapInst.params.gate_off_voltage ∧
    overlapStep.outputs.PWMA = overlapInst.params.gate_on_voltage ∧
    overlapStep.outputs.PWMB = overlapInst.params.gate_on_voltage := by
  norm_num [cpwm_step, calculate_counter_state, ccs_after_init, counter_raw, counter_dt,
    calculate_compare_values, process_pwm_actions, cpwm_init, cpwm_reset, clear_state,
    clear_outputs, overlapStep, overlapInst, overlapParams, zeroInst, CPWM_TOLERANCE,
    CPWM_WRAP_HIGH_THRESHOLD, CPWM_WRAP_LOW_THRESHOLD, abs_of_nonneg, abs_of_nonpos,
    abs_of_neg]

/-- C4 counterexample: a step whose time advance (`10 ns`) is far smaller
    than the carrier period (`1 ms`) and which does not cross a period
    boundary (the internal counter moves from `0` to `1/100000 < 1`) still
    reports `period_sync = true`, via the start-of-period tolerance branch. -/
theorem small_dt_period_sync_eval :
    ((1 : ℚ) / 100000000) < 1 / 1000 ∧
    stepped0.state.internal_counter = 0 ∧
    (cpwm_step stepped0 (1 / 100000000) false).state.internal_counter = 1 / 100000 ∧
    (cpwm_step stepped0 (1 / 100000000) false).outputs.period_sync = true := by
  norm_num [cpwm_step, calculate_counter_state, ccs_after_init, counter_raw, counter_dt,
    calculate_compare_values, process_pwm_actions, cpwm_init, cpwm_reset, clear_state,
    clear_outputs, stepped0, m0, dutyZeroParams, zeroInst, CPWM_TOLERANCE,
    CPWM_WRAP_HIGH_THRESHOLD, CPWM_WRAP_LOW_THRESHOLD]

/-- C6 counterexample: in the step from `warpStep2` to `warpStep3` the
    internal counter decreases from `0` to `-1/9` although no period wrap
    occurred (a wrap reduction `x - ⌊x⌋` can never produce a negative
    value), because the phase warp left a negative active frequency. -/
theorem counter_decreases_without_wrap_eval :
    warpStep2.state.internal_counter = 0 ∧
    warpStep3.state.internal_counter = -1 / 9 ∧
    warpStep3.state.internal_counter < warpStep2.state.internal_counter ∧
    warpStep3.state.internal_counter < 0 := by
  norm_num [cpwm_step, calculate_counter_state, ccs_after_init, counter_raw, counter_dt,
    calculate_compare_values, process_pwm_actions, cpwm_init, cpwm_reset, clear_state,
    clear_outputs, warpStep3, warpStep2, warpStep1, warpInst, warp10Params, zeroInst,
    CPWM_TOLERANCE, CPWM_WRAP_HIGH_THRESHOLD, CPWM_WRAP_LOW_THRESHOLD, abs_of_nonneg,
    abs_of_nonpos, abs_of_neg]

/-- C7 counterexample: `cpwm_init` performs no validation — initializing a
    module that holds a valid configuration (`Fs = 1000`) with a negative
    frequency and a negative dead time stores both invalid values instead
    of retaining the prior valid ones. -/
theorem init_accepts_invalid_config_eval :
    priorInst.params.Fs = 1000 ∧
    invalidParams.Fs ≤ 0 ∧ invalidParams.dead_time < 0 ∧
    (cpwm_init priorInst invalidParams).params.Fs = -1 ∧
    (cpwm_init priorInst invalidParams).params.dead_time = -1 ∧
    (cpwm_init priorInst invalidParams).state.current_Fs = -1 := by
  norm_num [cpwm_init, cpwm_reset, clear_state, clear_outputs, priorInst, priorParams,
    invalidParams, zeroInst]

end cpwm

namespace epwm

/-- C8 counterexample: with a configured off level of 5 V, the very first
    `epwm_step` after initialization leaves both gate outputs at the reset
    value `0.0` set by `clear_outputs`, not at `gate_off_voltage`. -/
theorem first_step_output_not_off_eval :
    offParams.gate_off_voltage = 5 ∧
    firstStep.outputs.PWMA = 0 ∧
    firstStep.outputs.PWMB = 0 ∧
    ¬ firstStep.outputs.PWMA = offParams.gate_off_voltage := by
  norm_num [firstStep, epwm_step, epwm_init, epwm_reset, apply_dead_time, clear_state,
    clear_outputs, calculate_counter_state, fmodf_one, EPWM_TOLERANCE, offParams, zeroInstE, abs_of_nonneg, abs_of_nonpos, abs_of_neg]

/-- C8 (amended): on the very first `epwm_step` after `epwm_init`, no latch
    is set or cleared (`pwma_state` and `pwmb_state` stay `false`),
    `previous_counter` is seeded with the freshly computed `counter_value`,
    the step is marked consumed (`first_run = false`), and both gate
    outputs keep the reset value `0.0` — which coincides with the
    configured off level only when `gate_off_voltage = 0`. -/
theorem first_step_seeds_and_stays_cleared (p : epwm_t) (params : epwm_params_t)
    (t cmpa cmpb : ℚ) (sync_in : Bool) :
    (epwm_step (epwm_init p params) t cmpa cmpb sync_in).state.pwma_state = false ∧
    (epwm_step (epwm_init p params) t cmpa cmpb sync_in).state.pwmb_state = false ∧
    (epwm_step (epwm_init p params) t cmpa cmpb sync_in).state.previous_counter
      = (epwm_step (epwm_init p params) t cmpa cmpb sync_in).state.counter_value ∧
    (epwm_step (epwm_init p params) t cmpa cmpb sync_in).outputs.PWMA = 0 ∧
    (epwm_step (epwm_init p params) t cmpa cmpb sync_in).outputs.PWMB = 0 ∧
    (epwm_step (epwm_init p params) t cmpa cmpb sync_in).state.first_run = false := by
  simp only [epwm_step, epwm_init, epwm_reset, apply_dead_time, clear_state, clear_outputs,
    calculate_counter_state]
  split_ifs <;> simp

end epwm

/-- C9: both reset operations are idempotent — calling `cpwm_reset` or
    `epwm_reset` twice in a row leaves the module (parameters, state and
    outputs) exactly as calling it once. -/
theorem reset_idempotent (p : cpwm.cpwm_t) (q : epwm.epwm_t) :
    cpwm.cpwm_reset (cpwm.cpwm_reset p) = cpwm.cpwm_reset p ∧
    epwm.epwm_reset (epwm.epwm_reset q) = epwm.epwm_reset q := by
  constructor <;> rfl

namespace cpwm

/-- C7 (amended): the runtime update operation rejects invalid values — for
    a non-positive frequency and a negative dead time, `update_parameters`
    leaves the stored frequency, dead time and the frequency bookkeeping
    state unchanged (`cpwm_init`, by contrast, applies its arguments
    without validation, see the C7 counterexample). -/
theorem update_parameters_rejects_invalid (p : cpwm_t) (frequency dead_time : ℚ)
    (phase_offset : Option ℚ) (duty_cycle : ℚ)
    (hf : frequency ≤ 0) (hd : dead_time < 0) :
    (update_parameters p frequency dead_time phase_offset duty_cycle).params.Fs
      = p.params.Fs ∧
    (update_parameters p frequency dead_time phase_offset duty_cycle).params.dead_time
      = p.params.dead_time ∧
    (update_parameters p frequency dead_time phase_offset duty_cycle).state.current_Fs
      = p.state.current_Fs ∧
    (update_parameters p frequency dead_time phase_offset duty_cycle).state.pending_Fs
      = p.state.pending_Fs ∧
    (update_parameters p frequency dead_time phase_offset duty_cycle).state.frequency_change_pending
      = p.state.frequency_change_pending := by
  simp only [update_parameters, not_lt.mpr hf, not_le.mpr hd, if_false]
  cases phase_offset <;> split_ifs <;> simp

/-- C7 witness: the rejection theorem applied to the concrete valid module
    `priorInst` with frequency `-1` and dead time `-1`. -/
theorem update_parameters_rejects_invalid_witness :
    (update_parameters priorInst (-1) (-1) (some (1 / 2)) (1 / 2)).params.Fs
      = priorInst.params.Fs ∧
    (update_parameters priorInst (-1) (-1) (some (1 / 2)) (1 / 2)).params.dead_time
      = priorInst.params.dead_time ∧
    (update_parameters priorInst (-1) (-1) (some (1 / 2)) (1 / 2)).state.current_Fs
      = priorInst.state.current_Fs ∧
    (update_parameters priorInst (-1) (-1) (some (1 / 2)) (1 / 2)).state.pending_Fs
      = priorInst.state.pending_Fs ∧
    (update_parameters priorInst (-1) (-1) (some (1 / 2)) (1 / 2)).state.frequency_change_pending
      = priorInst.state.frequency_change_pending :=
  update_parameters_rejects_invalid priorInst (-1) (-1) (some (1 / 2)) (1 / 2)
    (by norm_num) (by norm_num)

/-- C10: `update_parameters` never touches the outputs structure nor the
    counter-position state (`internal_counter`, `last_time`,
    `prev_counter`), and whenever the carrier has already started
    (`current_Fs ≠ 0`) it leaves the active frequency unchanged as well,
    so gate outputs and carrier position can change only through
    `cpwm_step`. -/
theorem update_parameters_frame (p : cpwm_t) (frequency dead_time : ℚ)
    (phase_offset : Option ℚ) (duty_cycle : ℚ) :
    (update_parameters p frequency dead_time phase_offset duty_cycle).outputs = p.outputs ∧
    (update_parameters p frequency dead_time phase_offset duty_cycle).state.internal_counter
      = p.state.internal_counter ∧
    (update_parameters p frequency dead_time phase_offset duty_cycle).state.last_time
      = p.state.last_time ∧
    (update_parameters p frequency dead_time phase_offset duty_cycle).state.prev_counter
      = p.state.prev_counter ∧
    (p.state.current_Fs ≠ 0 →
      (update_parameters p frequency dead_time phase_offset duty_cycle).state.current_Fs
        = p.state.current_Fs) := by
  simp only [update_parameters]
  cases phase_offset <;> split_ifs <;> simp_all

/-- C10 witness: the frame theorem applied to the running module
    `priorInst` (whose `current_Fs = 1000 ≠ 0`) with a full set of valid
    new parameter values. -/
theorem update_parameters_frame_witness :
    (update_parameters priorInst 2000 (1 / 100000) (some (1 / 4)) (3 / 4)).outputs
      = priorInst.outputs ∧
    (update_parameters priorInst 2000 (1 / 100000) (some (1 / 4)) (3 / 4)).state.internal_counter
      = priorInst.state.internal_counter ∧
    (update_parameters priorInst 2000 (1 / 100000) (some (1 / 4)) (3 / 4)).state.last_time
      = priorInst.state.last_time ∧
    (update_parameters priorInst 2000 (1 / 100000) (some (1 / 4)) (3 / 4)).state.prev_counter
      = priorInst.state.prev_counter ∧
    (update_parameters priorInst 2000 (1 / 100000) (some (1 / 4)) (3 / 4)).state.current_Fs
      = priorInst.state.current_Fs := by
  refine ⟨(update_parameters_frame priorInst 2000 (1 / 100000) (some (1 / 4)) (3 / 4)).1,
    (update_parameters_frame priorInst 2000 (1 / 100000) (some (1 / 4)) (3 / 4)).2.1,
    (update_parameters_frame priorInst 2000 (1 / 100000) (some (1 / 4)) (3 / 4)).2.2.1,
    (update_parameters_frame priorInst 2000 (1 / 100000) (some (1 / 4)) (3 / 4)).2.2.2.1,
    (update_parameters_frame priorInst 2000 (1 / 100000) (some (1 / 4)) (3 / 4)).2.2.2.2 ?_⟩
  norm_num [priorInst, priorParams, cpwm_init, cpwm_reset, clear_state, clear_outputs, zeroInst]

lemma step_frame (p : cpwm_t) (t : ℚ) :
    (cpwm_step p t false).outputs.period_sync = (calculate_counter_state p t).outputs.period_sync ∧
    (cpwm_step p t false).state.current_Fs = (calculate_counter_state p t).state.current_Fs ∧
    (cpwm_step p t false).state.internal_counter
      = (calculate_counter_state p t).state.internal_counter ∧
    (cpwm_step p t false).state.pending_Fs = (calculate_counter_state p t).state.pending_Fs ∧
    (cpwm_step p t false).state.frequency_change_pending
      = (calculate_counter_state p t).state.frequency_change_pending ∧
    (cpwm_step p t false).state.cumulative_phase_applied
      = (calculate_counter_state p t).state.cumulative_phase_applied ∧
    (cpwm_step p t false).state.last_time = (calculate_counter_state p t).state.last_time ∧
    (cpwm_step p t false).state.prev_counter = (calculate_counter_state p t).state.prev_counter := by
  simp [cpwm_step, calculate_compare_values, process_pwm_actions]

lemma ccs_period_sync_of_wrap (p : cpwm_t) (t : ℚ) (h0 : ¬ p.state.current_Fs = 0)
    (hw : 1 ≤ counter_raw p.state t) :
    (calculate_counter_state p t).outputs.period_sync = true := by
  simp only [calculate_counter_state, if_neg h0, ccs_after_init, ge_iff_le]
  simp [hw]

lemma ccs_no_wrap (p : cpwm_t) (t : ℚ) (h0 : ¬ p.state.current_Fs = 0)
    (hw : ¬ 1 ≤ counter_raw p.state t) :
    (calculate_counter_state p t).state.internal_counter = counter_raw p.state t ∧
    (calculate_counter_state p t).state.current_Fs = p.state.current_Fs ∧
    (calculate_counter_state p t).outputs.period_sync =
      (decide (counter_raw p.state t < CPWM_TOLERANCE)
        || (decide (p.state.prev_counter > CPWM_WRAP_HIGH_THRESHOLD)
            && decide (counter_raw p.state t < CPWM_WRAP_LOW_THRESHOLD))) := by
  simp only [calculate_counter_state, if_neg h0, ccs_after_init, ge_iff_le]
  simp [hw]

lemma ccs_internal_counter (p : cpwm_t) (t : ℚ) (h0 : ¬ p.state.current_Fs = 0) :
    (calculate_counter_state p t).state.internal_counter =
      (if 1 ≤ counter_raw p.state t then
        counter_raw p.state t - ((⌊counter_raw p.state t⌋ : ℤ) : ℚ)
      else counter_raw p.state t) := by
  simp only [calculate_counter_state, if_neg h0, ccs_after_init, ge_iff_le]
  split_ifs <;> simp_all

lemma ccs_wrap_phase (p : cpwm_t) (t : ℚ) (h0 : ¬ p.state.current_Fs = 0)
    (hw : 1 ≤ counter_raw p.state t)
    (hfcp : p.state.frequency_change_pending = false)
    (hph : |p.params.phase_offset - p.state.cumulative_phase_applied| > 1 / 1000000000) :
    (calculate_counter_state p t).state.current_Fs
      = p.params.Fs /
        (1 - p.params.Fs * (p.params.phase_offset - p.state.cumulative_phase_applied)) ∧
    (calculate_counter_state p t).state.pending_Fs = p.params.Fs ∧
    (calculate_counter_state p t).state.frequency_change_pending = true ∧
    (calculate_counter_state p t).state.cumulative_phase_applied = p.params.phase_offset ∧
    (calculate_counter_state p t).state.last_time = t := by
  have h9 : (1000000000 : ℚ)⁻¹ < |p.params.phase_offset - p.state.cumulative_phase_applied| := by
    rw [← one_div]; exact hph
  simp only [calculate_counter_state, if_neg h0, ccs_after_init, ge_iff_le]
  simp [hw, hfcp, h9]

lemma ccs_wrap_pending (p : cpwm_t) (t : ℚ) (h0 : ¬ p.state.current_Fs = 0)
    (hw : 1 ≤ counter_raw p.state t)
    (hfcp : p.state.frequency_change_pending = true) :
    (calculate_counter_state p t).state.current_Fs = p.state.pending_Fs ∧
    (calculate_counter_state p t).state.frequency_change_pending = false := by
  simp only [calculate_counter_state, if_neg h0, ccs_after_init, ge_iff_le]
  simp [hw, hfcp]

/-- C4 (amended): a `cpwm_step` whose time advance equals exactly one
    active-frequency period reports `period_sync = true`; a step that does
    not reach the period boundary (incremented counter stays below 1)
    reports `period_sync = false` provided neither tolerance heuristic
    fires — the new counter is at least the start-of-period tolerance
    `1e-4` and it is not the case that the previous counter exceeds `0.9`
    while the new one is below `0.1`. -/
theorem period_boundary_detection_amended (p : cpwm_t) (t₁ t₂ : ℚ)
    (hF : 0 < p.state.current_Fs)
    (hic : 0 ≤ p.state.internal_counter)
    (h1 : t₁ = p.state.last_time + 1 / p.state.current_Fs)
    (h2 : counter_raw p.state t₂ < 1)
    (h3 : CPWM_TOLERANCE ≤ counter_raw p.state t₂)
    (h4 : ¬ (CPWM_WRAP_HIGH_THRESHOLD < p.state.prev_counter ∧
             counter_raw p.state t₂ < CPWM_WRAP_LOW_THRESHOLD)) :
    (cpwm_step p t₁ false).outputs.period_sync = true ∧
    (cpwm_step p t₂ false).outputs.period_sync = false := by
  have h0 : ¬ p.state.current_Fs = 0 := ne_of_gt hF
  constructor
  · rw [(step_frame p t₁).1]
    apply ccs_period_sync_of_wrap p t₁ h0
    have hpos : 0 < 1 / p.state.current_Fs := by positivity
    have hdt : counter_dt p.state t₁ = 1 / p.state.current_Fs := by
      unfold counter_dt
      rw [h1]
      have he : p.state.last_time + 1 / p.state.current_Fs - p.state.last_time
          = 1 / p.state.current_Fs := by ring
      rw [he, if_neg (not_lt.mpr (le_of_lt hpos))]
    unfold counter_raw
    rw [hdt, one_div, inv_mul_cancel₀ h0]
    linarith
  · rw [(step_frame p t₂).1]
    have hnw : ¬ 1 ≤ counter_raw p.state t₂ := not_le.mpr h2
    rw [(ccs_no_wrap p t₂ h0 hnw).2.2]
    have hA : ¬ (counter_raw p.state t₂ < CPWM_TOLERANCE) := not_lt.mpr h3
    rcases not_and_or.mp h4 with hB | hC
    · simp [hA, hB]
    · simp [hA, hC]

/-- C4 witness: the amended boundary-detection theorem applied to the
    concrete 1 kHz module `stepped0` with a full-period step to `t = 1 ms`
    and a half-period step to `t = 0.5 ms`. -/
theorem period_boundary_detection_amended_witness :
    (cpwm_step stepped0 (1 / 1000) false).outputs.period_sync = true ∧
    (cpwm_step stepped0 (1 / 2000) false).outputs.period_sync = false :=
  period_boundary_detection_amended stepped0 (1 / 1000) (1 / 2000)
    (by norm_num [stepped0, m0, dutyZeroParams, zeroInst, cpwm_step, calculate_counter_state,
      ccs_after_init, counter_raw, counter_dt, calculate_compare_values, process_pwm_actions,
      cpwm_init, cpwm_reset, clear_state, clear_outputs, CPWM_TOLERANCE,
      CPWM_WRAP_HIGH_THRESHOLD, CPWM_WRAP_LOW_THRESHOLD, abs_of_nonneg, abs_of_nonpos])
    (by norm_num [stepped0, m0, dutyZeroParams, zeroInst, cpwm_step, calculate_counter_state,
      ccs_after_init, counter_raw, counter_dt, calculate_compare_values, process_pwm_actions,
      cpwm_init, cpwm_reset, clear_state, clear_outputs, CPWM_TOLERANCE,
      CPWM_WRAP_HIGH_THRESHOLD, CPWM_WRAP_LOW_THRESHOLD, abs_of_nonneg, abs_of_nonpos])
    (by norm_num [stepped0, m0, dutyZeroParams, zeroInst, cpwm_step, calculate_counter_state,
      ccs_after_init, counter_raw, counter_dt, calculate_compare_values, process_pwm_actions,
      cpwm_init, cpwm_reset, clear_state, clear_outputs, CPWM_TOLERANCE,
      CPWM_WRAP_HIGH_THRESHOLD, CPWM_WRAP_LOW_THRESHOLD, abs_of_nonneg, abs_of_nonpos])
    (by norm_num [stepped0, m0, dutyZeroParams, zeroInst, cpwm_step, calculate_counter_state,
      ccs_after_init, counter_raw, counter_dt, calculate_compare_values, process_pwm_actions,
      cpwm_init, cpwm_reset, clear_state, clear_outputs, CPWM_TOLERANCE,
      CPWM_WRAP_HIGH_THRESHOLD, CPWM_WRAP_LOW_THRESHOLD, abs_of_nonneg, abs_of_nonpos])
    (by norm_num [stepped0, m0, dutyZeroParams, zeroInst, cpwm_step, calculate_counter_state,
      ccs_after_init, counter_raw, counter_dt, calculate_compare_values, process_pwm_actions,
      cpwm_init, cpwm_reset, clear_state, clear_outputs, CPWM_TOLERANCE,
      CPWM_WRAP_HIGH_THRESHOLD, CPWM_WRAP_LOW_THRESHOLD, abs_of_nonneg, abs_of_nonpos])
    (by norm_num [stepped0, m0, dutyZeroParams, zeroInst, cpwm_step, calculate_counter_state,
      ccs_after_init, counter_raw, counter_dt, calculate_compare_values, process_pwm_actions,
      cpwm_init, cpwm_reset, clear_state, clear_outputs, CPWM_TOLERANCE,
      CPWM_WRAP_HIGH_THRESHOLD, CPWM_WRAP_LOW_THRESHOLD, abs_of_nonneg, abs_of_nonpos])

/-- C5: at a period wrap with no frequency change pending and a phase
    difference exceeding the `1e-9` epsilon, `cpwm_step` installs the
    one-cycle temporary frequency `Fs / (1 - Fs * phaseDifference)`,
    queues `pending_Fs = Fs` with `frequency_change_pending = true`, sets
    `cumulative_phase_applied` to the requested phase, and the next step
    that crosses a period boundary restores the nominal frequency `Fs`. -/
theorem phase_warp_one_cycle (p : cpwm_t) (t t₂ : ℚ)
    (h0 : p.state.current_Fs ≠ 0)
    (hw : 1 ≤ counter_raw p.state t)
    (hfcp : p.state.frequency_change_pending = false)
    (hph : |p.params.phase_offset - p.state.cumulative_phase_applied| > 1 / 1000000000) :
    (cpwm_step p t false).state.current_Fs
      = p.params.Fs /
        (1 - p.params.Fs * (p.params.phase_offset - p.state.cumulative_phase_applied)) ∧
    (cpwm_step p t false).state.pending_Fs = p.params.Fs ∧
    (cpwm_step p t false).state.frequency_change_pending = true ∧
    (cpwm_step p t false).state.cumulative_phase_applied = p.params.phase_offset ∧
    ((cpwm_step p t false).state.current_Fs ≠ 0 →
      1 ≤ counter_raw (cpwm_step p t false).state t₂ →
      (cpwm_step (cpwm_step p t false) t₂ false).state.current_Fs = p.params.Fs) := by
  obtain ⟨hc, hp, hf, hcum, _⟩ := ccs_wrap_phase p t h0 hw hfcp hph
  have F := step_frame p t
  refine ⟨F.2.1.trans hc, F.2.2.2.1.trans hp, F.2.2.2.2.1.trans hf,
    F.2.2.2.2.2.1.trans hcum, ?_⟩
  intro h0' hw2
  have F2 := step_frame (cpwm_step p t false) t₂
  rw [F2.2.1]
  rw [(ccs_wrap_pending (cpwm_step p t false) t₂ h0' hw2 (F.2.2.2.2.1.trans hf)).1]
  exact F.2.2.2.1.trans hp

/-- C5 witness: the §8 scenario of the spec — a quarter-period phase
    request on a 50 kHz carrier yields the one-cycle temporary frequency
    `50000 / 0.75 = 200000/3` and the following boundary restores 50 kHz. -/
theorem phase_warp_one_cycle_witness :
    (cpwm_step quarterInst (1 / 50000) false).state.current_Fs = 200000 / 3 ∧
    (cpwm_step quarterInst (1 / 50000) false).state.pending_Fs = 50000 ∧
    (cpwm_step quarterInst (1 / 50000) false).state.frequency_change_pending = true ∧
    (cpwm_step quarterInst (1 / 50000) false).state.cumulative_phase_applied = 1 / 200000 ∧
    (cpwm_step (cpwm_step quarterInst (1 / 50000) false) (7 / 200000) false).state.current_Fs
      = 50000 := by
  have H := phase_warp_one_cycle quarterInst (1 / 50000) (7 / 200000)
    (by norm_num [quarterInst, quarterParams, zeroInst, cpwm_init, cpwm_reset, clear_state,
      clear_outputs])
    (by norm_num [quarterInst, quarterParams, zeroInst, cpwm_init, cpwm_reset, clear_state,
      clear_outputs, counter_raw, counter_dt])
    (by norm_num [quarterInst, quarterParams, zeroInst, cpwm_init, cpwm_reset, clear_state,
      clear_outputs])
    (by norm_num [quarterInst, quarterParams, zeroInst, cpwm_init, cpwm_reset, clear_state,
      clear_outputs, abs_of_nonneg])
  refine ⟨H.1.trans (by norm_num [quarterInst, quarterParams, zeroInst, cpwm_init, cpwm_reset,
      clear_state, clear_outputs]),
    H.2.1.trans (by norm_num [quarterInst, quarterParams, zeroInst, cpwm_init, cpwm_reset,
      clear_state, clear_outputs]),
    H.2.2.1,
    H.2.2.2.1.trans (by norm_num [quarterInst, quarterParams, zeroInst, cpwm_init, cpwm_reset,
      clear_state, clear_outputs]),
    (H.2.2.2.2
      (by norm_num [quarterInst, quarterParams, zeroInst, cpwm_init, cpwm_reset, clear_state,
        clear_outputs, cpwm_step, calculate_counter_state, ccs_after_init, counter_raw,
        counter_dt, calculate_compare_values, process_pwm_actions, CPWM_TOLERANCE,
        CPWM_WRAP_HIGH_THRESHOLD, CPWM_WRAP_LOW_THRESHOLD, abs_of_nonneg, abs_of_nonpos])
      (by norm_num [quarterInst, quarterParams, zeroInst, cpwm_init, cpwm_reset, clear_state,
        clear_outputs, cpwm_step, calculate_counter_state, ccs_after_init, counter_raw,
        counter_dt, calculate_compare_values, process_pwm_actions, CPWM_TOLERANCE,
        CPWM_WRAP_HIGH_THRESHOLD, CPWM_WRAP_LOW_THRESHOLD, abs_of_nonneg, abs_of_nonpos])).trans
    (by norm_num [quarterInst, quarterParams, zeroInst, cpwm_init, cpwm_reset, clear_state,
      clear_outputs])⟩

/-- C6 (amended): without an external sync pulse, a current time at or
    before the stored `last_time` yields a zero time advance and leaves the
    internal counter unchanged; and, provided the stored active frequency
    is nonnegative, the internal counter never decreases during a step
    except by subtracting its own floor at a period wrap. -/
theorem backward_time_clamped_amended (p : cpwm_t) (t : ℚ)
    (h0 : ¬ p.state.current_Fs = 0) :
    (t ≤ p.state.last_time → p.state.internal_counter < 1 →
      (cpwm_step p t false).state.internal_counter = p.state.internal_counter) ∧
    (0 ≤ p.state.current_Fs →
      (p.state.internal_counter ≤ counter_raw p.state t ∧
       (cpwm_step p t false).state.internal_counter =
         counter_raw p.state t -
           (if 1 ≤ counter_raw p.state t then ((⌊counter_raw p.state t⌋ : ℤ) : ℚ) else 0))) := by
  have F := step_frame p t
  constructor
  · intro hback hlt
    have hdt : counter_dt p.state t = 0 := by
      unfold counter_dt
      split_ifs with h
      · rfl
      · linarith
    have hraw : counter_raw p.state t = p.state.internal_counter := by
      unfold counter_raw; rw [hdt]; ring
    rw [F.2.2.1, ccs_internal_counter p t h0, hraw, if_neg (not_le.mpr hlt)]
  · intro hFs
    have hdt0 : 0 ≤ counter_dt p.state t := by
      unfold counter_dt
      split_ifs with h
      · exact le_refl 0
      · linarith
    constructor
    · exact le_add_of_nonneg_right (mul_nonneg hdt0 hFs)
    · rw [F.2.2.1, ccs_internal_counter p t h0]
      split_ifs with h
      · rfl
      · rw [sub_zero]

/-- C6 witness: the amended theorem applied to the concrete module
    `stepped0` — a backward step to `t = -1` leaves the counter unchanged,
    and a forward step to `t = 0.5 ms` follows the raw-counter accounting. -/
theorem backward_time_clamped_amended_witness :
    ((cpwm_step stepped0 (-1) false).state.internal_counter
        = stepped0.state.internal_counter) ∧
    (stepped0.state.internal_counter ≤ counter_raw stepped0.state (1 / 2000) ∧
     (cpwm_step stepped0 (1 / 2000) false).state.internal_counter =
       counter_raw stepped0.state (1 / 2000) -
         (if 1 ≤ counter_raw stepped0.state (1 / 2000) then
           ((⌊counter_raw stepped0.state (1 / 2000)⌋ : ℤ) : ℚ) else 0)) := by
  constructor
  · exact (backward_time_clamped_amended stepped0 (-1)
      (by norm_num [stepped0, m0, dutyZeroParams, zeroInst, cpwm_step, calculate_counter_state,
        ccs_after_init, counter_raw, counter_dt, calculate_compare_values, process_pwm_actions,
        cpwm_init, cpwm_reset, clear_state, clear_outputs, CPWM_TOLERANCE,
        CPWM_WRAP_HIGH_THRESHOLD, CPWM_WRAP_LOW_THRESHOLD, abs_of_nonneg, abs_of_nonpos])).1
      (by norm_num [stepped0, m0, dutyZeroParams, zeroInst, cpwm_step, calculate_counter_state,
        ccs_after_init, counter_raw, counter_dt, calculate_compare_values, process_pwm_actions,
        cpwm_init, cpwm_reset, clear_state, clear_outputs, CPWM_TOLERANCE,
        CPWM_WRAP_HIGH_THRESHOLD, CPWM_WRAP_LOW_THRESHOLD, abs_of_nonneg, abs_of_nonpos])
      (by norm_num [stepped0, m0, dutyZeroParams, zeroInst, cpwm_step, calculate_counter_state,
        ccs_after_init, counter_raw, counter_dt, calculate_compare_values, process_pwm_actions,
        cpwm_init, cpwm_reset, clear_state, clear_outputs, CPWM_TOLERANCE,
        CPWM_WRAP_HIGH_THRESHOLD, CPWM_WRAP_LOW_THRESHOLD, abs_of_nonneg, abs_of_nonpos])
  · exact (backward_time_clamped_amended stepped0 (1 / 2000)
      (by norm_num [stepped0, m0, dutyZeroParams, zeroInst, cpwm_step, calculate_counter_state,
        ccs_after_init, counter_raw, counter_dt, calculate_compare_values, process_pwm_actions,
        cpwm_init, cpwm_reset, clear_state, clear_outputs, CPWM_TOLERANCE,
        CPWM_WRAP_HIGH_THRESHOLD, CPWM_WRAP_LOW_THRESHOLD, abs_of_nonneg, abs_of_nonpos])).2
      (by norm_num [stepped0, m0, dutyZeroParams, zeroInst, cpwm_step, calculate_counter_state,
        ccs_after_init, counter_raw, counter_dt, calculate_compare_values, process_pwm_actions,
        cpwm_init, cpwm_reset, clear_state, clear_outputs, CPWM_TOLERANCE,
        CPWM_WRAP_HIGH_THRESHOLD, CPWM_WRAP_LOW_THRESHOLD, abs_of_nonneg, abs_of_nonpos])

end cpwm
